import Mathlib

/-!
# Verification of the `mr_sim` material-removal simulator

A shallow embedding of the `mr_sim` Python package (files `base.py`,
`shapes.py`, `types.py`, `pressure.py`, `models.py`) over the reals,
together with theorems checking the natural-language specification
against the code.

Modelling conventions:
* numpy element-wise array arithmetic is modelled pointwise: a field over
  the grid is a function `ℝ → ℝ → ℝ` of the grid coordinates;
* Python `float` arithmetic is modelled by `ℝ`; places where the code's
  IEEE semantics (division by zero giving `inf`/`nan`, comparisons with
  `nan` being false) matter are modelled by explicit case analysis and
  documented at the definition;
* Python booleans used in arithmetic (`True`/`False` as `1`/`0`) are
  modelled by explicit `if … then 1 else 0` indicator terms;
* constructors that can raise are functions into `Except String _`;
  reading an instance attribute that was never assigned (Python
  `AttributeError`) is modelled by an `Option` lookup for that attribute.
-/

open Real
open scoped Classical

namespace MrSim

/-! ## `base.py` : the `Base` class

`Base.__init__` (base.py lines 50-59) builds the coordinate grids from
`size_x`, `size_y`, `dx`, `dy` and then assigns `self.profile`, `self.dt`,
`self.auto_vel`, `self.x = None`, `self.y = None`, `self.vl_x = 0`,
`self.vl_y = 0`.  Note that it does *not* assign `self.dx` or `self.dy`:
the spacing arguments are consumed by `np.arange` and discarded.  The
state below records exactly the attributes `Base.__init__` assigns; the
tool pose starts as `None`, modelled by `Option ℝ`. -/
structure BaseState where
  dt : ℝ
  autoVel : Bool
  x : Option ℝ
  y : Option ℝ
  vlX : ℝ
  vlY : ℝ
  profile : ℝ → ℝ → ℝ

/-- Model of `Base.__init__` (base.py lines 37-59): zero profile, timestep `dt`,
`auto_vel` flag, undefined pose, zero linear velocity. -/
def baseInit (dt : ℝ) (autoVelocity : Bool) : BaseState :=
  { dt := dt
    autoVel := autoVelocity
    x := none
    y := none
    vlX := 0
    vlY := 0
    profile := fun _ _ => 0 }

/-- Model of `Base.set_location` (base.py lines 61-78).  When `auto_vel` is set and
either pose coordinate is still `None`, the code first overwrites both pose
attributes with the new values and then computes
`vl_x = (x - self.x) / dt`, which is `(x - x) / dt`; we keep that literal
difference.  (In Python a zero `dt` would raise `ZeroDivisionError`; over
`ℝ` the quotient is `0`, which agrees with Python whenever `dt ≠ 0`.) -/
noncomputable def setLocation (s : BaseState) (x y : ℝ) : BaseState :=
  match s.autoVel, s.x, s.y with
  | true, some x0, some y0 =>
      { s with x := some x, y := some y
               vlX := (x - x0) / s.dt, vlY := (y - y0) / s.dt }
  | true, _, _ =>
      { s with x := some x, y := some y
               vlX := (x - x) / s.dt, vlY := (y - y) / s.dt }
  | false, _, _ => { s with x := some x, y := some y }

/-- Model of `Base.set_velocity` (base.py lines 80-91). -/
def setVelocity (s : BaseState) (x y : ℝ) : BaseState :=
  { s with vlX := x, vlY := y }

/-! ## `types.py` : velocity variants

Each variant stores its speed attributes next to the `Base` attributes of
the composed simulation object; the linear velocity `vl_x`, `vl_y` lives
in the `Base` part.  The `velocity` methods are translated verbatim from
`types.py`; note that none of them reads `vl_x` or `vl_y`. -/

/-- The attributes of an `Orbital` (types.py lines 20-35) simulation that
`Orbital.velocity` and `set_speed`/`set_velocity` can touch. -/
structure OrbitalState where
  eccentricity : ℝ
  orbitalSpeed : ℝ
  rotationalSpeed : ℝ
  vlX : ℝ
  vlY : ℝ

/-- Model of `Orbital.set_speed` (types.py lines 37-47). -/
def OrbitalState.setSpeed (s : OrbitalState) (orbitalSpeed rotationalSpeed : ℝ) :
    OrbitalState :=
  { s with orbitalSpeed := orbitalSpeed, rotationalSpeed := rotationalSpeed }

/-- Model of `Orbital.velocity` (types.py lines 49-69):
`sqrt((eccentricity * orbital_speed)**2 + (x**2 + y**2) * rotational_speed**2)`. -/
noncomputable def OrbitalState.velocity (s : OrbitalState) (x y : ℝ) : ℝ :=
  Real.sqrt ((s.eccentricity * s.orbitalSpeed) ^ 2
    + (x ^ 2 + y ^ 2) * s.rotationalSpeed ^ 2)

/-- The attributes of a `Belt` (types.py lines 82-97) simulation used by
`Belt.velocity`. -/
structure BeltState where
  speed : ℝ
  vlX : ℝ
  vlY : ℝ

/-- Model of `Belt.set_speed` (types.py lines 91-97). -/
def BeltState.setSpeed (s : BeltState) (speed : ℝ) : BeltState :=
  { s with speed := speed }

/-- Model of `Belt.velocity` (types.py lines 99-116): returns `self.speed`. -/
def BeltState.velocity (s : BeltState) (_x _y : ℝ) : ℝ := s.speed

/-- The attributes of a `Rotary` (types.py lines 129-144) simulation used
by `Rotary.velocity`. -/
structure RotaryState where
  speed : ℝ
  vlX : ℝ
  vlY : ℝ

/-- Model of `Rotary.set_speed` (types.py lines 138-144). -/
def RotaryState.setSpeed (s : RotaryState) (speed : ℝ) : RotaryState :=
  { s with speed := speed }

/-- Model of `Rotary.velocity` (types.py lines 146-163):
`np.sqrt(x**2 + y**2) * self.speed`. -/
noncomputable def RotaryState.velocity (s : RotaryState) (x y : ℝ) : ℝ :=
  Real.sqrt (x ^ 2 + y ^ 2) * s.speed

/-- Action of `set_velocity` acting on the `Base` part of an `Orbital` composition. -/
def OrbitalState.setVelocity (s : OrbitalState) (x y : ℝ) : OrbitalState :=
  { s with vlX := x, vlY := y }

/-- Action of `set_velocity` acting on the `Base` part of a `Belt` composition. -/
def BeltState.setVelocity (s : BeltState) (x y : ℝ) : BeltState :=
  { s with vlX := x, vlY := y }

/-- Action of `set_velocity` acting on the `Base` part of a `Rotary` composition. -/
def RotaryState.setVelocity (s : RotaryState) (x y : ℝ) : RotaryState :=
  { s with vlX := x, vlY := y }

/-! ## `shapes.py` : contact shapes -/

/-- Model of `BaseShape._antialias` (shapes.py lines 32-48), pointwise on a scalar
`x`.  With `antialias` set the code returns
`(x < -dist) + (x - dist) / dist * (dist > x > -dist)`, where the Python
booleans act as `0`/`1` in the arithmetic; with `antialias` unset it
returns the attribute `self.antialias` itself, i.e. `False`, which is `0`
in arithmetic.  (On numpy *arrays* the chained comparison
`dist > x > -dist` raises `ValueError`; the pointwise scalar semantics is
modelled here.) -/
noncomputable def antialiasFn (antialias : Bool) (dist x : ℝ) : ℝ :=
  if antialias then
    (if x < -dist then 1 else 0)
      + (x - dist) / dist * (if -dist < x ∧ x < dist then 1 else 0)
  else 0

/-- Model of `Round.shape` (shapes.py lines 96-109):
`self._antialias(x**2 + y**2 - self.r**2)`. -/
noncomputable def roundShape (antialias : Bool) (dist r x y : ℝ) : ℝ :=
  antialiasFn antialias dist (x ^ 2 + y ^ 2 - r ^ 2)

/-- Model of `Rectangular.shape` (shapes.py lines 167-185): the product of the four
anti-aliased half-plane constraints. -/
noncomputable def rectShape (antialias : Bool) (dist width height x y : ℝ) : ℝ :=
  antialiasFn antialias dist (width / 2 + x)
    * antialiasFn antialias dist (width / 2 - x)
    * antialiasFn antialias dist (height / 2 + y)
    * antialiasFn antialias dist (height / 2 - y)

/-- Model of `BaseShape.__init__` (shapes.py lines 16-30) resolution of
`antialias_dist`: when the argument is `None` the code computes
`np.sqrt(self.dx ** 2 + self.dy ** 2)`.  `Base.__init__` never assigns
`self.dx`/`self.dy`, so at that point those attributes exist only if some
other class of the composition (concretely `ConstantCurvature.__init__`,
which runs its body earlier in the cooperative `super()` chain) assigned
them; `dxAttr`/`dyAttr` are the values of `self.dx`/`self.dy` at the time
the `BaseShape.__init__` body runs, `none` meaning the attribute is
absent, in which case Python raises `AttributeError`. -/
noncomputable def baseShapeAntialiasDist (antialiasDistArg : Option ℝ)
    (dxAttr dyAttr : Option ℝ) : Except String ℝ :=
  match antialiasDistArg with
  | some d => .ok d
  | none =>
    match dxAttr, dyAttr with
    | some dx, some dy => .ok (Real.sqrt (dx ^ 2 + dy ^ 2))
    | _, _ => .error "AttributeError: object has no attribute dx"

/-- The geometry attributes a `Round` tool keeps in sync (shapes.py
lines 84-94). -/
structure RoundGeom where
  r : ℝ
  area : ℝ
  Ix : ℝ
  Iy : ℝ

/-- The `radius` property setter of `Round` (shapes.py lines 89-94):
sets `r` and recomputes `area = π r²`, `Ix = Iy = π r⁴ / 4`. -/
noncomputable def roundSetRadius (r : ℝ) : RoundGeom :=
  { r := r
    area := Real.pi * r ^ 2
    Ix := Real.pi * r ^ 4 / 4
    Iy := Real.pi * r ^ 4 / 4 }

/-- The geometry attributes a `Rectangular` tool keeps in sync (shapes.py
lines 151-156). -/
structure RectGeom where
  width : ℝ
  height : ℝ
  area : ℝ
  Ix : ℝ
  Iy : ℝ

/-- Model of `Rectangular._set_size` (shapes.py lines 151-156), also the body of
`Rectangular.set_size` (lines 158-165). -/
noncomputable def rectSetSize (width height : ℝ) : RectGeom :=
  { width := width
    height := height
    area := width * height
    Ix := width * height ^ 3 / 12
    Iy := width ^ 3 * height / 12 }

/-- Model of `Square.set_size` (shapes.py lines 212-218): `self._set_size(width, width)`. -/
noncomputable def squareSetSize (width : ℝ) : RectGeom := rectSetSize width width

/-- The state built by a stand-alone `Round` tool construction. -/
structure RoundToolState where
  antialias : Bool
  antialiasDist : ℝ
  geom : RoundGeom

/-- Model of `Round.__init__` (shapes.py lines 69-82) for a composition whose MRO
contains no class assigning `self.dx` before `BaseShape.__init__`'s body
runs (e.g. plain `Round`, or `create_simulation(Flat, Round, …)`).  The
cooperative `super().__init__()` chain, which includes
`BaseShape.__init__`, runs *before* the `radius is None` check; with the
default `antialias_dist=None` that chain raises `AttributeError` on
`self.dx`. -/
noncomputable def plainRoundInit (radius : Option ℝ)
    (antialias : Bool) (antialiasDist : Option ℝ) :
    Except String RoundToolState := do
  let d ← baseShapeAntialiasDist antialiasDist none none
  match radius with
  | none => .error "ValueError: Tool radius must be set."
  | some r => .ok { antialias := antialias, antialiasDist := d, geom := roundSetRadius r }

/-- The state built by a stand-alone `Rectangular` (or `Square`) tool
construction. -/
structure RectToolState where
  antialias : Bool
  antialiasDist : ℝ
  geom : RectGeom

/-- Model of `Rectangular.__init__` (shapes.py lines 131-149) for a composition
whose MRO contains no class assigning `self.dx`: the `width`/`height`
checks run *before* `super().__init__()`, which then resolves
`antialias_dist`. -/
noncomputable def plainRectInit (width height : Option ℝ)
    (antialias : Bool) (antialiasDist : Option ℝ) :
    Except String RectToolState := do
  match width with
  | none => .error "ValueError: Tool width must be set."
  | some w =>
    match height with
    | none => .error "ValueError: Tool height must be set."
    | some h => do
      let d ← baseShapeAntialiasDist antialiasDist none none
      .ok { antialias := antialias, antialiasDist := d, geom := rectSetSize w h }

/-- Model of `Square.__init__` (shapes.py lines 199-210):
`super().__init__(*args, width=width, height=width, **kwargs)`. -/
noncomputable def plainSquareInit (width : Option ℝ)
    (antialias : Bool) (antialiasDist : Option ℝ) :
    Except String RectToolState :=
  plainRectInit width width antialias antialiasDist

/-! ## `pressure.py`, `models.py` and composed simulations

`create_simulation` makes one object carrying the attributes of all the
chosen components.  Two concrete compositions are modelled:

* `FRBSim` — `create_simulation(Flat, Rectangular, Belt, Preston)`:
  Flat pressure on a rectangular tool with belt kinematics;
* `RCCSim` — `create_simulation(Round, ConstantCurvature, Belt, Preston)`:
  constant-curvature pressure on a round tool.
-/

/-- A composed `Flat` + `Rectangular` + `Belt` + `Preston` simulation
object: the `Base` attributes plus the attributes assigned by
`Flat.__init__` (pressure.py lines 30-39), `Rectangular._set_size`
(shapes.py lines 151-156), `BaseShape.__init__`, `Belt.__init__`
(types.py lines 82-89) and `Preston.__init__` (models.py lines 26-34). -/
structure FRBSim where
  base : BaseState
  geom : RectGeom
  antialias : Bool
  antialiasDist : ℝ
  force : ℝ
  torqueX : ℝ
  torqueY : ℝ
  speed : ℝ
  kp : ℝ

/-- Model of `Flat.pressure` (pressure.py lines 59-78):
`force / area + x * torque_y / Iy - y * torque_x / Ix`.  Note the formula
is *not* multiplied by the contact-shape mask. -/
noncomputable def FRBSim.pressure (s : FRBSim) (x y : ℝ) : ℝ :=
  s.force / s.geom.area + x * s.torqueY / s.geom.Iy - y * s.torqueX / s.geom.Ix

/-- The contact-shape mask of the composed simulation
(`Rectangular.shape`, shapes.py lines 167-185). -/
noncomputable def FRBSim.shape (s : FRBSim) (x y : ℝ) : ℝ :=
  rectShape s.antialias s.antialiasDist s.geom.width s.geom.height x y

/-- Model of `Preston.mrr` (models.py lines 36-51) for this composition:
`kp * pressure(x, y) * velocity(x, y)` with `Belt.velocity = speed`. -/
noncomputable def FRBSim.mrr (s : FRBSim) (x y : ℝ) : ℝ :=
  s.kp * s.pressure x y * s.speed

/-- Model of `Base.step` (base.py lines 102-105):
`profile += dt * mrr(X - x, Y - y)`.  `local_grid` reads the pose, which
raises `TypeError` while the pose is still `None`; that failure is
modelled by `none`. -/
noncomputable def FRBSim.step (s : FRBSim) : Option FRBSim :=
  match s.base.x, s.base.y with
  | some x0, some y0 =>
      some { s with base := { s.base with
        profile := fun X Y =>
          s.base.profile X Y + s.base.dt * s.mrr (X - x0) (Y - y0) } }
  | _, _ => none

/-- The caller commands the composed `FRBSim` exposes between steps. -/
inductive FRBCmd where
  | setLocation (x y : ℝ)
  | setVelocity (x y : ℝ)
  | setForce (f : ℝ)
  | setTorque (x y : ℝ)
  | setSpeed (v : ℝ)
  | step

/-- One caller command (`Base.set_location`/`set_velocity`,
`Flat.set_force` pressure.py lines 41-47, `Flat.set_torque` lines 49-57,
`Belt.set_speed` types.py lines 91-97, `Base.step`). -/
noncomputable def FRBSim.exec (s : FRBSim) : FRBCmd → Option FRBSim
  | .setLocation x y => some { s with base := setLocation s.base x y }
  | .setVelocity x y => some { s with base := setVelocity s.base x y }
  | .setForce f => some { s with force := f }
  | .setTorque x y => some { s with torqueX := x, torqueY := y }
  | .setSpeed v => some { s with speed := v }
  | .step => s.step

/-- A finite sequence of caller commands, run left to right; a raised
exception aborts the run. -/
noncomputable def FRBSim.execList (s : FRBSim) : List FRBCmd → Option FRBSim
  | [] => some s
  | c :: cs => match s.exec c with
    | some s' => s'.execList cs
    | none => none

/-- Construction of the composed simulation
(`create_simulation(Flat, Rectangular, Belt, Preston)` then
`Simulation(size, …, width=w, height=h, antialias_dist=d, …)`): the
`Rectangular` width/height checks, then the cooperative chain assigning
every component's attributes.  `antialias_dist` must be passed explicitly
(its `None` default raises `AttributeError`, see
`baseShapeAntialiasDist`); the profile starts at zero, force, torques,
speed at zero, `kp` defaulting to 1. -/
noncomputable def frbInit (dt : ℝ) (autoVelocity : Bool) (width height : Option ℝ)
    (antialias : Bool) (antialiasDist : Option ℝ) (kp : ℝ) :
    Except String FRBSim := do
  match width with
  | none => .error "ValueError: Tool width must be set."
  | some w =>
    match height with
    | none => .error "ValueError: Tool height must be set."
    | some h => do
      let d ← baseShapeAntialiasDist antialiasDist none none
      .ok { base := baseInit dt autoVelocity
            geom := rectSetSize w h
            antialias := antialias
            antialiasDist := d
            force := 0, torqueX := 0, torqueY := 0
            speed := 0
            kp := kp }

/-- A composed `Round` + `ConstantCurvature` + `Belt` + `Preston`
simulation object.  `ConstantCurvature.__init__` (pressure.py
lines 102-126) assigns `force`, `kx`, `ky`, `stiffness` and — unlike
`Base.__init__` — stores `dx`, `dy` on the instance. -/
structure RCCSim where
  base : BaseState
  geom : RoundGeom
  antialias : Bool
  antialiasDist : ℝ
  force : ℝ
  kx : ℝ
  ky : ℝ
  stiffness : ℝ
  dx : ℝ
  dy : ℝ
  speed : ℝ
  kp : ℝ

/-- The contact-shape mask of the composed simulation (`Round.shape`,
shapes.py lines 96-109). -/
noncomputable def RCCSim.shape (s : RCCSim) (x y : ℝ) : ℝ :=
  roundShape s.antialias s.antialiasDist s.geom.r x y

/-- The inner `pressure(d)` closure of `ConstantCurvature.pressure`
(pressure.py lines 167-170): `p = stiffness * (d - kx x²/2 - ky y²/2)`
then `p *= shape * (p > 0)`. -/
noncomputable def ccPressureAt (s : RCCSim) (d x y : ℝ) : ℝ :=
  s.stiffness * (d - s.kx * x ^ 2 / 2 - s.ky * y ^ 2 / 2)
    * (s.shape x y
      * (if 0 < s.stiffness * (d - s.kx * x ^ 2 / 2 - s.ky * y ^ 2 / 2) then 1
        else 0))

/-- The first closed-form penetration-depth candidate of
`ConstantCurvature.pressure` (pressure.py lines 173-175):
`d = sqrt(force * sqrt(kx*ky) / (stiffness * π))`. -/
noncomputable def ccD1 (s : RCCSim) : ℝ :=
  Real.sqrt (s.force * Real.sqrt (s.kx * s.ky) / (s.stiffness * Real.pi))

/-- The second closed-form penetration-depth candidate (pressure.py
lines 178-181): `d = force / (stiffness * π * r²) + r² (kx + ky) / 8`. -/
noncomputable def ccD2 (s : RCCSim) : ℝ :=
  s.force / (s.stiffness * Real.pi * s.geom.r ^ 2)
    + s.geom.r ^ 2 * (s.kx + s.ky) / 8

/-- The guard of the first closed-form branch (pressure.py line 176):
`radius >= sqrt(2 * d / min(kx, ky))`, under the code's IEEE float
semantics made explicit.  When `min(kx, ky) = 0` the quotient is
`nan`/`inf` and the finite radius never satisfies the comparison (at
`kx = ky = 0`, `2*d = 0` and `0/0` is `nan`); when the radicand of `ccD1`
is negative, `np.sqrt` yields `nan` and the comparison is again false.
With `0 < min(kx, ky)` and a nonnegative radicand all values are finite
and the comparison is the real one. -/
noncomputable def ccGuard1 (s : RCCSim) : Prop :=
  0 < min s.kx s.ky
    ∧ 0 ≤ s.force * Real.sqrt (s.kx * s.ky) / (s.stiffness * Real.pi)
    ∧ Real.sqrt (2 * ccD1 s / min s.kx s.ky) ≤ s.geom.r

/-- The guard of the second closed-form branch (pressure.py line 182):
`radius <= sqrt(2 * d / max(kx, ky))`, IEEE semantics made explicit.
When `max(kx, ky) = 0`: for `d > 0` the quotient is `+inf`, whose square
root is `inf`, and the comparison holds; for `d = 0` it is `nan` and for
`d < 0` it is `-inf` with `nan` square root, and the comparison fails.
Otherwise the comparison requires the (real) quotient to be nonnegative
(else `np.sqrt` gives `nan`). -/
noncomputable def ccGuard2 (s : RCCSim) : Prop :=
  if max s.kx s.ky = 0 then 0 < ccD2 s
  else 0 ≤ 2 * ccD2 s / max s.kx s.ky
    ∧ s.geom.r ≤ Real.sqrt (2 * ccD2 s / max s.kx s.ky)

/-- Model of `ConstantCurvature.pressure` (pressure.py lines 146-192) for a round
tool: the two closed-form branches.  When neither guard holds the code
falls back to a `scipy.optimize.minimize_scalar` equilibrium solve
(lines 185-192), outside the scope of this model (`none`). -/
noncomputable def ccRoundPressureField (s : RCCSim) : Option (ℝ → ℝ → ℝ) :=
  if ccGuard1 s then some (ccPressureAt s (ccD1 s))
  else if ccGuard2 s then some (ccPressureAt s (ccD2 s))
  else none

/-- Model of `Base.step` for the `Round` + `ConstantCurvature` + `Belt` + `Preston`
composition: `profile += dt * kp * pressure(X - x, Y - y) * speed`;
`none` when the pose is unset or the pressure falls to the numeric
solver. -/
noncomputable def RCCSim.step (s : RCCSim) : Option RCCSim :=
  match s.base.x, s.base.y, ccRoundPressureField s with
  | some x0, some y0, some P =>
      some { s with base := { s.base with
        profile := fun X Y =>
          s.base.profile X Y
            + s.base.dt * (s.kp * P (X - x0) (Y - y0) * s.speed) } }
  | _, _, _ => none

/-- Construction of the `Round` + `ConstantCurvature` + `Belt` + `Preston`
composition.  In this MRO the body of `ConstantCurvature.__init__`
(pressure.py lines 118-126) runs before the body of `BaseShape.__init__`,
so `self.dx`, `self.dy` are present when the default `antialias_dist` is
computed; the body of `Round.__init__` (the `radius` check and the
`radius` property assignment) runs last. -/
noncomputable def rccInit (dt : ℝ) (autoVelocity : Bool) (kx ky : ℝ)
    (stiffness : Option ℝ) (dx dy : ℝ) (radius : Option ℝ)
    (antialias : Bool) (antialiasDist : Option ℝ) (kp : ℝ) :
    Except String RCCSim := do
  match stiffness with
  | none => .error "ValueError: tool stiffness must be set"
  | some st => do
    let d ← baseShapeAntialiasDist antialiasDist (some dx) (some dy)
    match radius with
    | none => .error "ValueError: Tool radius must be set."
    | some r =>
      .ok { base := baseInit dt autoVelocity
            geom := roundSetRadius r
            antialias := antialias
            antialiasDist := d
            force := 0, kx := kx, ky := ky
            stiffness := st, dx := dx, dy := dy
            speed := 0, kp := kp }

/-! ## Remaining constructors modelled for the error-handling claims -/

/-- Model of `Orbital.__init__` (types.py lines 20-35): after the cooperative
`super().__init__()` chain, raise unless `eccentricity` was given. -/
def orbitalInit (eccentricity : Option ℝ) : Except String OrbitalState :=
  match eccentricity with
  | none => .error "ValueError: Tool eccentricity must be set."
  | some e => .ok { eccentricity := e, orbitalSpeed := 0, rotationalSpeed := 0
                    vlX := 0, vlY := 0 }

/-- The loading attributes `ConstantCurvature.__init__` (pressure.py
lines 102-126) assigns. -/
structure CCState where
  force : ℝ
  kx : ℝ
  ky : ℝ
  stiffness : ℝ
  dx : ℝ
  dy : ℝ

/-- Model of `ConstantCurvature.__init__` (pressure.py lines 102-126): raises
unless `stiffness` was given; `kx`, `ky`, `dx`, `dy` default to values,
never checked. -/
def ccInit (kx ky : ℝ) (stiffness : Option ℝ) (dx dy : ℝ) :
    Except String CCState :=
  match stiffness with
  | none => .error "ValueError: tool stiffness must be set"
  | some st => .ok { force := 0, kx := kx, ky := ky, stiffness := st
                     dx := dx, dy := dy }

/-- The `mesh` argument of `Mesh.__init__`: a filename, a `pymesh.Mesh`
instance, or a value of any other type. -/
inductive MeshArg where
  | str (filename : String)
  | pymesh
  | other

/-- The attributes `Mesh.__init__` (pressure.py lines 218-253) assigns
(the loaded mesh and its vertex normals are opaque here). -/
structure MeshState where
  force : ℝ
  stiffness : ℝ
  thickness : ℝ
  segments : ℕ

/-- Model of `Mesh.__init__` (pressure.py lines 218-253): first the
`isinstance(self, Round)` check (raising `TypeError` for a composition
without `Round`), then the cooperative chain, then the `stiffness` and
`mesh` checks in order, with a `TypeError` for a `mesh` argument that is
neither a `str` nor a `pymesh.Mesh`. -/
def meshInit (isRound : Bool) (mesh : Option MeshArg) (stiffness : Option ℝ) :
    Except String MeshState :=
  if !isRound then .error "TypeError: the mesh class is only defined for round tools"
  else match stiffness with
  | none => .error "ValueError: tool stiffness not set"
  | some st => match mesh with
    | none => .error "ValueError: part mesh not set"
    | some (.str _) => .ok { force := 0, stiffness := st, thickness := 0.02, segments := 50 }
    | some .pymesh => .ok { force := 0, stiffness := st, thickness := 0.02, segments := 50 }
    | some .other => .error "TypeError: mesh is not a string or a pymesh.Mesh object"

/-- Returns `true` on the constructions that raise during `__init__` and so
produce no simulation instance. -/
def isErr {α : Type} : Except String α → Bool
  | .error _ => true
  | .ok _ => false

/-- Action of `ConstantCurvature.set_force` (pressure.py lines 138-144) on
the composed state. -/
def RCCSim.setForce (s : RCCSim) (force : ℝ) : RCCSim :=
  { s with force := force }

/-- Action of `Belt.set_speed` on the composed state. -/
def RCCSim.setSpeed (s : RCCSim) (speed : ℝ) : RCCSim :=
  { s with speed := speed }

/-- Action of `Base.set_location` on the composed state. -/
noncomputable def RCCSim.setLocation (s : RCCSim) (x y : ℝ) : RCCSim :=
  { s with base := MrSim.setLocation s.base x y }

/-- Condition under which the removal-rate field of a
Flat + Rectangular + Belt + Preston simulation is nonnegative everywhere:
nonnegative timestep, Preston coefficient, force, belt speed and tool
area, and zero torques. -/
def FRBSim.NonnegRate (s : FRBSim) : Prop :=
  0 ≤ s.base.dt ∧ 0 ≤ s.kp ∧ 0 ≤ s.force ∧ 0 ≤ s.speed
    ∧ s.torqueX = 0 ∧ s.torqueY = 0 ∧ 0 ≤ s.geom.area

/-- Caller commands that keep `FRBSim.NonnegRate`: nonnegative forces and
speeds, zero torques, arbitrary motion commands. -/
def FRBCmd.Benign : FRBCmd → Prop
  | .setForce f => 0 ≤ f
  | .setTorque x y => x = 0 ∧ y = 0
  | .setSpeed v => 0 ≤ v
  | _ => True

/-! ## Concrete sample simulations used in the theorems below -/

/-- Flat + Rectangular + Belt + Preston simulation as constructed by
`Simulation(sx, sy, width=2, height=2, antialias_dist=1)` (so `dt = 1`,
`auto_velocity = False`, `kp = 1`). -/
noncomputable def frbDemo0 : FRBSim :=
  { base := baseInit 1 false
    geom := rectSetSize 2 2
    antialias := true, antialiasDist := 1
    force := 0, torqueX := 0, torqueY := 0
    speed := 0, kp := 1 }

/-- State of `frbDemo0` after `set_location(0, 0)`, `set_force(4)`,
`set_speed(1)` (spelled out as a record literal). -/
noncomputable def frbDemo1 : FRBSim :=
  { base := { dt := 1, autoVel := false, x := some 0, y := some 0
              vlX := 0, vlY := 0, profile := fun _ _ => 0 }
    geom := rectSetSize 2 2
    antialias := true, antialiasDist := 1
    force := 4, torqueX := 0, torqueY := 0
    speed := 1, kp := 1 }

/-- State of `frbDemo1` after one `step()`. -/
noncomputable def frbDemo2 : FRBSim :=
  { frbDemo1 with base := { frbDemo1.base with
      profile := fun X Y =>
        frbDemo1.base.profile X Y + frbDemo1.base.dt * frbDemo1.mrr (X - 0) (Y - 0) } }

/-- State of `frbDemo0` after `set_location(0, 0)`, `set_force(-4)`,
`set_speed(1)` (spelled out as a record literal). -/
noncomputable def frbDemoNegPre : FRBSim :=
  { base := { dt := 1, autoVel := false, x := some 0, y := some 0
              vlX := 0, vlY := 0, profile := fun _ _ => 0 }
    geom := rectSetSize 2 2
    antialias := true, antialiasDist := 1
    force := -4, torqueX := 0, torqueY := 0
    speed := 1, kp := 1 }

/-- State of `frbDemoNegPre` after one `step()`. -/
noncomputable def frbDemoNeg : FRBSim :=
  { frbDemoNegPre with base := { frbDemoNegPre.base with
      profile := fun X Y =>
        frbDemoNegPre.base.profile X Y
          + frbDemoNegPre.base.dt * frbDemoNegPre.mrr (X - 0) (Y - 0) } }

/-- Round + ConstantCurvature + Belt + Preston simulation as constructed
by `Simulation(sx, sy, radius=2, stiffness=1, kx=0, ky=0, dx=1, dy=1,
antialias_dist=1)`. -/
noncomputable def rccDemo0 : RCCSim :=
  { base := baseInit 1 false
    geom := roundSetRadius 2
    antialias := true, antialiasDist := 1
    force := 0, kx := 0, ky := 0
    stiffness := 1, dx := 1, dy := 1
    speed := 0, kp := 1 }

/-- State of `rccDemo0` after `set_location(0, 0)`, `set_force(π)`,
`set_speed(1)`: a flat (zero-curvature) contact under positive force
(spelled out as a record literal). -/
noncomputable def rccDemo : RCCSim :=
  { base := { dt := 1, autoVel := false, x := some 0, y := some 0
              vlX := 0, vlY := 0, profile := fun _ _ => 0 }
    geom := roundSetRadius 2
    antialias := true, antialiasDist := 1
    force := Real.pi, kx := 0, ky := 0
    stiffness := 1, dx := 1, dy := 1
    speed := 1, kp := 1 }

/-- State of `rccDemo` after one `step()` (the pressure solve takes the
second closed-form branch). -/
noncomputable def rccStepDemo : RCCSim :=
  { rccDemo with base := { rccDemo.base with
      profile := fun X Y =>
        rccDemo.base.profile X Y
          + rccDemo.base.dt
            * (rccDemo.kp * ccPressureAt rccDemo (ccD2 rccDemo) (X - 0) (Y - 0)
              * rccDemo.speed) } }

/-! ## Theorems -/

/-- C1 (counterexample): the claim states that `Rotary` with `speed = 5`
and feed velocity `(vl_x, vl_y) = (4, 2)` returns
`sqrt((x² + y²)·25 + 16 + 4)`; at the tool centre `(0, 0)` the code
returns `sqrt(0)·5 = 0`, not `sqrt(20)`: the feed velocity is not
combined into the velocity field. -/
theorem C1_counterexample :
    (((⟨0, 0, 0⟩ : RotaryState).setSpeed 5).setVelocity 4 2).velocity 0 0
      ≠ Real.sqrt ((0 ^ 2 + 0 ^ 2) * 5 ^ 2 + 4 ^ 2 + 2 ^ 2) := by
  have hL : (((⟨0, 0, 0⟩ : RotaryState).setSpeed 5).setVelocity 4 2).velocity 0 0
      = 0 := by
    show Real.sqrt ((0 : ℝ) ^ 2 + 0 ^ 2) * 5 = 0
    norm_num
  have hR : (0 : ℝ) < Real.sqrt ((0 ^ 2 + 0 ^ 2) * 5 ^ 2 + 4 ^ 2 + 2 ^ 2) :=
    Real.sqrt_pos.mpr (by norm_num)
  rw [hL]
  exact ne_of_lt hR

/-- C1 (amended): each velocity variant returns only the intrinsic
tool-motion term — Orbital `sqrt((eccentricity·orbital_speed)² +
(x²+y²)·rotational_speed²)`, Belt `speed`, Rotary `sqrt(x²+y²)·speed` —
with no feed-velocity contribution: the result is unchanged by any
`set_velocity(vl_x, vl_y)`. -/
theorem C1_velocity_intrinsic_only (so : OrbitalState) (sb : BeltState)
    (sr : RotaryState) (x y a b : ℝ) :
    ((so.setVelocity a b).velocity x y
        = Real.sqrt ((so.eccentricity * so.orbitalSpeed) ^ 2
            + (x ^ 2 + y ^ 2) * so.rotationalSpeed ^ 2)
      ∧ (sb.setVelocity a b).velocity x y = sb.speed
      ∧ (sr.setVelocity a b).velocity x y = Real.sqrt (x ^ 2 + y ^ 2) * sr.speed) :=
  ⟨rfl, rfl, rfl⟩

/-- C4 (code evaluation at the failing input): for a round tool of radius
2 with `antialias_dist = 1`, the shape weight at the boundary point
`(2, 0)` is `-1`, outside `[0, 1]` — the band formula
`(x - dist) / dist` ramps from `-2` to `0` instead of `1` to `0`; and
with anti-aliasing disabled the weight at the interior point `(0, 0)` is
`0`, not `1` (the method returns the flag `False` itself). -/
theorem C4_shape_weight_outside_unit_interval :
    roundShape true 1 2 2 0 = -1
      ∧ roundShape true 1 2 2 0 < 0
      ∧ roundShape false 1 2 0 0 = 0 := by
  have h : roundShape true 1 2 2 0 = -1 := by
    norm_num [roundShape, antialiasFn]
  refine ⟨h, by rw [h]; norm_num, by norm_num [roundShape, antialiasFn]⟩

/-- C5 (code evaluation at the failing input): constructing
`Round(1, 1, radius=3)` or `Rectangular(1, 1, width=3, height=5)` with
the default `antialias_dist=None` raises `AttributeError` in
`BaseShape.__init__`, because `Base.__init__` never stores `self.dx`,
`self.dy`; the construction does not succeed and no
`antialias_dist = sqrt(dx² + dy²)` is produced. -/
theorem C5_default_antialias_dist_raises :
    plainRoundInit (some 3) true none
        = .error "AttributeError: object has no attribute dx"
      ∧ plainRectInit (some 3) (some 5) true none
        = .error "AttributeError: object has no attribute dx" :=
  ⟨rfl, rfl⟩

/-- C6 (confirmed): with `auto_velocity` enabled and a nonzero timestep,
the first `set_location(a, b)` sets the pose and leaves the velocity at
`(0, 0)`, and every later `set_location(x1, y1)` from pose `(x0, y0)`
sets `vl = ((x1-x0)/dt, (y1-y0)/dt)` while updating the pose — a
backward-difference estimator. -/
theorem C6_auto_velocity (s : BaseState) (a b x1 y1 x0 y0 : ℝ)
    (hav : s.autoVel = true) (hdt : s.dt ≠ 0) :
    ((s.x = none ∨ s.y = none) →
        setLocation s a b
          = { s with x := some a, y := some b, vlX := 0, vlY := 0 })
  ∧ (s.x = some x0 → s.y = some y0 →
        setLocation s x1 y1
          = { s with x := some x1, y := some y1
                     vlX := (x1 - x0) / s.dt, vlY := (y1 - y0) / s.dt }) := by
  clear hdt
  rcases s with ⟨dt, av, sx, sy, vx, vy, pr⟩
  simp only [BaseState.autoVel] at hav
  subst hav
  constructor
  · intro h
    rcases sx with _ | u
    · simp [setLocation, sub_self, zero_div]
    · rcases sy with _ | v
      · simp [setLocation, sub_self, zero_div]
      · rcases h with h | h <;> simp at h
  · intro hx hy
    rcases sx with _ | u
    · simp at hx
    · rcases sy with _ | v
      · simp at hy
      · simp only [Option.some.injEq] at hx hy
        subst hx
        subst hy
        simp [setLocation]

/-- C6 witness: on a freshly constructed auto-velocity state with
`dt = 1`, the first `set_location(3, 4)` sets the pose to `(3, 4)` and
the velocity to `(0, 0)`. -/
theorem C6_auto_velocity_witness :
    setLocation (baseInit 1 true) 3 4
      = { baseInit 1 true with x := some 3, y := some 4, vlX := 0, vlY := 0 } :=
  (C6_auto_velocity (baseInit 1 true) 3 4 0 0 0 0 rfl one_ne_zero).1 (Or.inl rfl)

/-- C7 (confirmed): construction and every geometry mutation keep the
derived quantities consistent — `Round` has `area = πr²`,
`Ix = Iy = πr⁴/4`; `Rectangular` has `area = w·h`, `Ix = w·h³/12`,
`Iy = w³·h/12`; `Square` has `width = height` at construction and after
`set_size`. -/
theorem C7_geometry_invariants (r w h d : ℝ) :
    plainRoundInit (some r) true (some d)
        = .ok { antialias := true, antialiasDist := d, geom := roundSetRadius r }
  ∧ plainRectInit (some w) (some h) true (some d)
        = .ok { antialias := true, antialiasDist := d, geom := rectSetSize w h }
  ∧ plainSquareInit (some w) true (some d)
        = .ok { antialias := true, antialiasDist := d, geom := rectSetSize w w }
  ∧ (roundSetRadius r).area = Real.pi * (roundSetRadius r).r ^ 2
  ∧ (roundSetRadius r).Ix = Real.pi * (roundSetRadius r).r ^ 4 / 4
  ∧ (roundSetRadius r).Iy = Real.pi * (roundSetRadius r).r ^ 4 / 4
  ∧ (rectSetSize w h).area = (rectSetSize w h).width * (rectSetSize w h).height
  ∧ (rectSetSize w h).Ix
      = (rectSetSize w h).width * (rectSetSize w h).height ^ 3 / 12
  ∧ (rectSetSize w h).Iy
      = (rectSetSize w h).width ^ 3 * (rectSetSize w h).height / 12
  ∧ (squareSetSize w).width = (squareSetSize w).height :=
  ⟨rfl, rfl, rfl, rfl, rfl, rfl, rfl, rfl, rfl, rfl⟩

/-- C9 (confirmed): every construction with a required component
parameter missing (radius, width, height, eccentricity, stiffness, mesh)
or type-mismatched (mesh of an unrecognized type, `Mesh` composed with a
non-round shape) raises during `__init__` and produces no instance. -/
theorem C9_required_params_raise :
    (∀ ad, isErr (plainRoundInit none true ad) = true)
  ∧ (∀ h ad, isErr (plainRectInit none h true ad) = true)
  ∧ (∀ w ad, isErr (plainRectInit w none true ad) = true)
  ∧ (∀ ad, isErr (plainSquareInit none true ad) = true)
  ∧ isErr (orbitalInit none) = true
  ∧ (∀ kx ky dx dy, isErr (ccInit kx ky none dx dy) = true)
  ∧ (∀ dt av kx ky dx dy rad aa ad kp,
      isErr (rccInit dt av kx ky none dx dy rad aa ad kp) = true)
  ∧ (∀ m, isErr (meshInit true m none) = true)
  ∧ (∀ st, isErr (meshInit true none st) = true)
  ∧ (∀ st, isErr (meshInit true (some MeshArg.other) st) = true)
  ∧ (∀ m st, isErr (meshInit false m st) = true) := by
  refine ⟨?_, ?_, ?_, ?_, rfl, ?_, ?_, ?_, ?_, ?_, ?_⟩
  · intro ad; rcases ad with _ | d <;> rfl
  · intro h ad; rfl
  · intro w ad; rcases w with _ | w
    · rfl
    · rfl
  · intro ad; rfl
  · intro kx ky dx dy; rfl
  · intro dt av kx ky dx dy rad aa ad kp; rfl
  · intro m; rfl
  · intro st; rcases st with _ | st <;> rfl
  · intro st; rcases st with _ | st <;> rfl
  · intro m st; rfl

/-- C10 (confirmed): an omitted argument of `set_location`/`set_velocity`
defaults to `0` and overwrites the previous value: from any state,
`set_location(x)` puts the pose at `(x, 0)`, `set_location()` at
`(0, 0)`, and `set_velocity` with an omitted component forces that
velocity component to `0`. -/
theorem C10_omitted_args_default_zero (s : BaseState) (x y : ℝ) :
    ((setLocation s x 0).x = some x ∧ (setLocation s x 0).y = some 0)
  ∧ ((setLocation s 0 y).x = some 0 ∧ (setLocation s 0 y).y = some y)
  ∧ ((setLocation s 0 0).x = some 0 ∧ (setLocation s 0 0).y = some 0)
  ∧ ((setVelocity s x 0).vlX = x ∧ (setVelocity s x 0).vlY = 0)
  ∧ ((setVelocity s 0 y).vlX = 0 ∧ (setVelocity s 0 y).vlY = y) := by
  rcases s with ⟨dt, av, sx, sy, vx, vy, pr⟩
  cases av <;> cases sx <;> cases sy <;> simp [setLocation, setVelocity]

/-! ### Helper lemmas -/

/-- The inner pressure closure vanishes wherever the shape mask is zero
(the mask is a multiplicative factor). -/
theorem ccPressureAt_mask_zero (s : RCCSim) (d x y : ℝ) (h : s.shape x y = 0) :
    ccPressureAt s d x y = 0 := by
  unfold ccPressureAt
  rw [h]
  ring

/-- With zero curvature in both directions and a positive second depth
candidate, `ConstantCurvature.pressure` takes the second closed-form
branch (the first guard's `nan` comparison is false, the second guard's
`inf` comparison is true). -/
theorem ccRoundPressureField_zero_curv (s : RCCSim) (hkx : s.kx = 0)
    (hky : s.ky = 0) (hd2 : 0 < ccD2 s) :
    ccRoundPressureField s = some (ccPressureAt s (ccD2 s)) := by
  have hg1 : ¬ ccGuard1 s := by
    unfold ccGuard1
    rw [hkx, hky]
    simp
  have hg2 : ccGuard2 s := by
    unfold ccGuard2
    rw [hkx, hky]
    simpa using hd2
  unfold ccRoundPressureField
  rw [if_neg hg1, if_pos hg2]

/-- Unfolding equation for `RCCSim.step` when the pose is set and the
pressure solve takes a closed-form branch. -/
theorem rccStepEq (s : RCCSim) (x0 y0 : ℝ) (P : ℝ → ℝ → ℝ)
    (hx : s.base.x = some x0) (hy : s.base.y = some y0)
    (hPF : ccRoundPressureField s = some P) :
    RCCSim.step s = some { s with base := { s.base with
      profile := fun X Y =>
        s.base.profile X Y
          + s.base.dt * (s.kp * P (X - x0) (Y - y0) * s.speed) } } := by
  unfold RCCSim.step
  rw [hx, hy, hPF]

/-- Unfolding equation for `FRBSim.step` when the pose is set. -/
theorem frbStepEq (s : FRBSim) (x0 y0 : ℝ)
    (hx : s.base.x = some x0) (hy : s.base.y = some y0) :
    FRBSim.step s = some { s with base := { s.base with
      profile := fun X Y =>
        s.base.profile X Y + s.base.dt * s.mrr (X - x0) (Y - y0) } } := by
  unfold FRBSim.step
  rw [hx, hy]

/-- Opening a location update leaves the timestep and the profile
untouched. -/
theorem setLocation_fields (s : BaseState) (x y : ℝ) :
    (setLocation s x y).dt = s.dt ∧ (setLocation s x y).profile = s.profile := by
  rcases s with ⟨dt, av, sx, sy, vx, vy, pr⟩
  cases av <;> cases sx <;> cases sy <;> exact ⟨rfl, rfl⟩

/-! ### C2 -/

/-- C2 (counterexample): the claim is false for the `Flat` pressure
variant — in the reachable state `frbDemo1` (rectangular 2×2 tool at the
origin, force 4, belt speed 1) the cell at `(10, 0)` has shape-mask
weight `0`, yet `Flat.pressure` there is `1`, not `0`, and one `step()`
raises the profile at that non-contacted cell from `0` to `1`. -/
theorem C2_counterexample :
    frbInit 1 false (some 2) (some 2) true (some 1) 1 = .ok frbDemo0
  ∧ FRBSim.execList frbDemo0
      [FRBCmd.setLocation 0 0, FRBCmd.setForce 4, FRBCmd.setSpeed 1]
      = some frbDemo1
  ∧ frbDemo1.shape 10 0 = 0
  ∧ frbDemo1.pressure 10 0 = 1
  ∧ FRBSim.step frbDemo1 = some frbDemo2
  ∧ frbDemo1.base.profile 10 0 = 0
  ∧ frbDemo2.base.profile 10 0 = 1 := by
  refine ⟨rfl, rfl, ?_, ?_, rfl, rfl, ?_⟩
  · norm_num [FRBSim.shape, rectShape, antialiasFn, frbDemo1, rectSetSize]
  · norm_num [FRBSim.pressure, frbDemo1, rectSetSize]
  · show frbDemo1.base.profile 10 0
        + frbDemo1.base.dt * frbDemo1.mrr (10 - 0) (0 - 0) = 1
    norm_num [frbDemo1, FRBSim.mrr, FRBSim.pressure, rectSetSize]

/-- C2 (amended): for the `ConstantCurvature` pressure variant (round
tool, closed-form branches) the pressure field is exactly zero at every
point where the contact-shape mask weight is zero, and a `step()` leaves
the profile unchanged at every such cell; `Flat`'s pressure is not masked
by the shape (see the counterexample). -/
theorem C2_cc_pressure_zero_outside_mask :
    (∀ (s : RCCSim) (d x y : ℝ), s.shape x y = 0 → ccPressureAt s d x y = 0)
  ∧ (∀ (s s' : RCCSim) (x0 y0 X Y : ℝ),
      s.base.x = some x0 → s.base.y = some y0 →
      RCCSim.step s = some s' → s.shape (X - x0) (Y - y0) = 0 →
      s'.base.profile X Y = s.base.profile X Y) := by
  constructor
  · intro s d x y h
    exact ccPressureAt_mask_zero s d x y h
  · intro s s' x0 y0 X Y hx hy hstep hsh
    cases hPF : ccRoundPressureField s with
    | none =>
      rw [RCCSim.step, hx, hy, hPF] at hstep
      exact Option.noConfusion hstep
    | some P =>
      rw [rccStepEq s x0 y0 P hx hy hPF] at hstep
      simp only [Option.some.injEq] at hstep
      have hP0 : P (X - x0) (Y - y0) = 0 := by
        unfold ccRoundPressureField at hPF
        by_cases h1 : ccGuard1 s
        · rw [if_pos h1] at hPF
          simp only [Option.some.injEq] at hPF
          rw [← hPF]
          exact ccPressureAt_mask_zero s (ccD1 s) _ _ hsh
        · rw [if_neg h1] at hPF
          by_cases h2 : ccGuard2 s
          · rw [if_pos h2] at hPF
            simp only [Option.some.injEq] at hPF
            rw [← hPF]
            exact ccPressureAt_mask_zero s (ccD2 s) _ _ hsh
          · rw [if_neg h2] at hPF
            exact Option.noConfusion hPF
      rw [← hstep]
      show s.base.profile X Y
          + s.base.dt * (s.kp * P (X - x0) (Y - y0) * s.speed)
        = s.base.profile X Y
      rw [hP0]
      ring

/-- C2 witness: in the concrete zero-curvature round simulation
`rccDemo`, a `step()` leaves the profile unchanged at the uncontacted
cell `(5, 0)`. -/
theorem C2_cc_pressure_zero_outside_mask_witness :
    rccStepDemo.base.profile 5 0 = rccDemo.base.profile 5 0 := by
  have hd2 : 0 < ccD2 rccDemo := by
    show (0 : ℝ) < Real.pi / (1 * Real.pi * 2 ^ 2) + 2 ^ 2 * (0 + 0) / 8
    have hpi := Real.pi_pos
    positivity
  have hfield : ccRoundPressureField rccDemo
      = some (ccPressureAt rccDemo (ccD2 rccDemo)) :=
    ccRoundPressureField_zero_curv rccDemo rfl rfl hd2
  have hstep : RCCSim.step rccDemo = some rccStepDemo :=
    rccStepEq rccDemo 0 0 (ccPressureAt rccDemo (ccD2 rccDemo)) rfl rfl hfield
  have hmask : rccDemo.shape (5 - 0) (0 - 0) = 0 := by
    norm_num [RCCSim.shape, roundShape, antialiasFn, rccDemo, roundSetRadius]
  exact C2_cc_pressure_zero_outside_mask.2 rccDemo rccStepDemo 0 0 5 0
    rfl rfl hstep hmask

/-! ### C3 -/

/-- Under `NonnegRate` the Preston removal rate is nonnegative at every
point. -/
theorem FRBSim.mrr_nonneg (s : FRBSim) (hs : s.NonnegRate) (x y : ℝ) :
    0 ≤ s.mrr x y := by
  obtain ⟨_, hkp, hF, hsp, htx, hty, harea⟩ := hs
  unfold FRBSim.mrr FRBSim.pressure
  rw [htx, hty]
  have h : s.force / s.geom.area + x * 0 / s.geom.Iy - y * 0 / s.geom.Ix
      = s.force / s.geom.area := by ring
  rw [h]
  exact mul_nonneg (mul_nonneg hkp (div_nonneg hF harea)) hsp

/-- A single benign command preserves `NonnegRate` and never lowers the
profile at any cell. -/
theorem FRBSim.exec_mono (s : FRBSim) (c : FRBCmd) (s' : FRBSim)
    (hs : s.NonnegRate) (hc : c.Benign) (he : s.exec c = some s') :
    s'.NonnegRate ∧ ∀ X Y, s.base.profile X Y ≤ s'.base.profile X Y := by
  obtain ⟨hdt, hkp, hF, hsp, htx, hty, harea⟩ := hs
  cases c with
  | setLocation x y =>
    simp only [FRBSim.exec, Option.some.injEq] at he
    subst he
    obtain ⟨hdt', hpr'⟩ := setLocation_fields s.base x y
    refine ⟨⟨?_, hkp, hF, hsp, htx, hty, harea⟩, fun X Y => ?_⟩
    · show 0 ≤ (setLocation s.base x y).dt
      rw [hdt']
      exact hdt
    · show s.base.profile X Y ≤ (setLocation s.base x y).profile X Y
      rw [hpr']
  | setVelocity x y =>
    simp only [FRBSim.exec, Option.some.injEq] at he
    subst he
    exact ⟨⟨hdt, hkp, hF, hsp, htx, hty, harea⟩, fun X Y => le_rfl⟩
  | setForce f =>
    simp only [FRBSim.exec, Option.some.injEq] at he
    subst he
    exact ⟨⟨hdt, hkp, hc, hsp, htx, hty, harea⟩, fun X Y => le_rfl⟩
  | setTorque x y =>
    simp only [FRBSim.exec, Option.some.injEq] at he
    subst he
    exact ⟨⟨hdt, hkp, hF, hsp, hc.1, hc.2, harea⟩, fun X Y => le_rfl⟩
  | setSpeed v =>
    simp only [FRBSim.exec, Option.some.injEq] at he
    subst he
    exact ⟨⟨hdt, hkp, hF, hc, htx, hty, harea⟩, fun X Y => le_rfl⟩
  | step =>
    cases hx : s.base.x with
    | none =>
      rw [show s.exec FRBCmd.step = s.step from rfl, FRBSim.step, hx] at he
      exact Option.noConfusion he
    | some x0 =>
      cases hy : s.base.y with
      | none =>
        rw [show s.exec FRBCmd.step = s.step from rfl, FRBSim.step, hx, hy] at he
        exact Option.noConfusion he
      | some y0 =>
        rw [show s.exec FRBCmd.step = s.step from rfl,
          frbStepEq s x0 y0 hx hy] at he
        simp only [Option.some.injEq] at he
        subst he
        refine ⟨⟨hdt, hkp, hF, hsp, htx, hty, harea⟩, fun X Y => ?_⟩
        show s.base.profile X Y
            ≤ s.base.profile X Y + s.base.dt * s.mrr (X - x0) (Y - y0)
        have hr : 0 ≤ s.mrr (X - x0) (Y - y0) :=
          FRBSim.mrr_nonneg s ⟨hdt, hkp, hF, hsp, htx, hty, harea⟩ _ _
        nlinarith [mul_nonneg hdt hr]

/-- A benign command sequence preserves `NonnegRate` and never lowers
the profile at any cell. -/
theorem FRBSim.execList_mono (cmds : List FRBCmd) : ∀ (s s' : FRBSim),
    s.NonnegRate → (∀ c ∈ cmds, FRBCmd.Benign c) →
    s.execList cmds = some s' →
    s'.NonnegRate ∧ ∀ X Y, s.base.profile X Y ≤ s'.base.profile X Y := by
  induction cmds with
  | nil =>
    intro s s' hs _ he
    simp only [FRBSim.execList, Option.some.injEq] at he
    subst he
    exact ⟨hs, fun X Y => le_rfl⟩
  | cons c cs ih =>
    intro s s' hs hc he
    unfold FRBSim.execList at he
    cases hec : s.exec c with
    | none =>
      rw [hec] at he
      exact Option.noConfusion he
    | some s1 =>
      rw [hec] at he
      obtain ⟨h1, hp1⟩ :=
        FRBSim.exec_mono s c s1 hs (hc c (List.mem_cons_self c cs)) hec
      obtain ⟨h2, hp2⟩ := ih s1 s' h1 (fun d hd => hc d (List.mem_cons_of_mem c hd)) he
      exact ⟨h2, fun X Y => le_trans (hp1 X Y) (hp2 X Y)⟩

/-- C3 (counterexample): the profile is not non-decreasing for every
command sequence — starting from the constructed simulation `frbDemo0`
(zero profile), the sequence `set_location(0,0)`, `set_force(-4)`,
`set_speed(1)`, `step()` drives the profile at the cell `(0, 0)` from `0`
down to `-1`. -/
theorem C3_counterexample :
    frbInit 1 false (some 2) (some 2) true (some 1) 1 = .ok frbDemo0
  ∧ FRBSim.execList frbDemo0
      [FRBCmd.setLocation 0 0, FRBCmd.setForce (-4), FRBCmd.setSpeed 1,
        FRBCmd.step]
      = some frbDemoNeg
  ∧ frbDemo0.base.profile 0 0 = 0
  ∧ frbDemoNeg.base.profile 0 0 = -1 := by
  refine ⟨rfl, rfl, rfl, ?_⟩
  show frbDemoNegPre.base.profile 0 0
      + frbDemoNegPre.base.dt * frbDemoNegPre.mrr (0 - 0) (0 - 0) = -1
  norm_num [frbDemoNegPre, FRBSim.mrr, FRBSim.pressure, rectSetSize]

/-- C3 (amended): the profile starts at zero at construction, and it is
cell-wise non-decreasing along every command sequence whose commands keep
the removal rate nonnegative (nonnegative forces and speeds, zero
torques), starting from any state with nonnegative rate data; with a
negative force (or a tilting torque) a `step()` can strictly decrease the
profile, as the counterexample shows. -/
theorem C3_profile_monotone_for_nonneg_rates :
    (∀ (dtv kpv wv hv dv : ℝ) (av aa : Bool) (s0 : FRBSim),
        frbInit dtv av (some wv) (some hv) aa (some dv) kpv = .ok s0 →
        ∀ X Y, s0.base.profile X Y = 0)
  ∧ (∀ (s s' : FRBSim) (cmds : List FRBCmd),
        s.NonnegRate → (∀ c ∈ cmds, FRBCmd.Benign c) →
        s.execList cmds = some s' →
        ∀ X Y, s.base.profile X Y ≤ s'.base.profile X Y) := by
  constructor
  · intro dtv kpv wv hv dv av aa s0 h X Y
    have h2 : (Except.ok
          (FRBSim.mk (baseInit dtv av) (rectSetSize wv hv) aa dv 0 0 0 0 kpv)
        : Except String FRBSim) = Except.ok s0 := h
    injection h2 with h3
    rw [← h3]
    rfl
  · exact fun s s' cmds hs hc he => (FRBSim.execList_mono cmds s s' hs hc he).2

/-- C3 witness: the freshly constructed `frbDemo0` has a zero profile,
and running the benign command `set_force(1)` from it never lowers the
profile. -/
theorem C3_profile_monotone_witness :
    frbDemo0.base.profile 3 7 = 0
  ∧ frbDemo0.base.profile 0 0
      ≤ ({ frbDemo0 with force := 1 } : FRBSim).base.profile 0 0 :=
  ⟨C3_profile_monotone_for_nonneg_rates.1 1 1 2 2 1 false true frbDemo0 rfl 3 7,
    C3_profile_monotone_for_nonneg_rates.2 frbDemo0
      { frbDemo0 with force := 1 } [FRBCmd.setForce 1]
      ⟨by norm_num [frbDemo0, baseInit], by norm_num [frbDemo0],
        by norm_num [frbDemo0], by norm_num [frbDemo0], rfl, rfl,
        by norm_num [frbDemo0, rectSetSize]⟩
      (by intro c hc
          simp only [List.mem_singleton] at hc
          subst hc
          show (0 : ℝ) ≤ 1
          norm_num)
      rfl 0 0⟩

/-! ### C8 -/

/-- C8 (counterexample): in the reachable zero-curvature round
simulation `rccDemo` (radius 2, stiffness 1, force π) the boundary cell
`(2, 0)` has *nonzero* shape-mask weight `-1`, but the pressure there is
`-(1/4)`, not the uniform `F/area = 1/4`: the closed-form branch returns
the mask-weighted value `shape · F/area`, which differs from `F/area`
wherever the weight is nonzero but not `1`. -/
theorem C8_counterexample :
    ((rccDemo0.setLocation 0 0).setForce Real.pi).setSpeed 1 = rccDemo
  ∧ ccRoundPressureField rccDemo = some (ccPressureAt rccDemo (ccD2 rccDemo))
  ∧ rccDemo.shape 2 0 = -1
  ∧ rccDemo.force / rccDemo.geom.area = 1 / 4
  ∧ ccPressureAt rccDemo (ccD2 rccDemo) 2 0 = -(1 / 4)
  ∧ ccPressureAt rccDemo (ccD2 rccDemo) 2 0
      ≠ rccDemo.force / rccDemo.geom.area := by
  have hpi := Real.pi_ne_zero
  have hd2 : 0 < ccD2 rccDemo := by
    show (0 : ℝ) < Real.pi / (1 * Real.pi * 2 ^ 2) + 2 ^ 2 * (0 + 0) / 8
    have hpp := Real.pi_pos
    positivity
  have hd2v : ccD2 rccDemo = 1 / 4 := by
    show Real.pi / (1 * Real.pi * 2 ^ 2) + 2 ^ 2 * (0 + 0) / 8 = 1 / 4
    field_simp
    norm_num
  have hsh : rccDemo.shape 2 0 = -1 := by
    norm_num [RCCSim.shape, roundShape, antialiasFn, rccDemo, roundSetRadius]
  have harea : rccDemo.force / rccDemo.geom.area = 1 / 4 := by
    show Real.pi / (Real.pi * 2 ^ 2) = 1 / 4
    field_simp
    norm_num
  have hP : ccPressureAt rccDemo (ccD2 rccDemo) 2 0 = -(1 / 4) := by
    unfold ccPressureAt
    rw [show rccDemo.stiffness
          * (ccD2 rccDemo - rccDemo.kx * 2 ^ 2 / 2 - rccDemo.ky * 0 ^ 2 / 2)
        = 1 / 4 by rw [hd2v]; show (1 : ℝ) * (1 / 4 - 0 * 2 ^ 2 / 2 - 0 * 0 ^ 2 / 2)
          = 1 / 4; norm_num]
    rw [hsh]
    norm_num
  refine ⟨rfl, ccRoundPressureField_zero_curv rccDemo rfl rfl hd2, hsh, harea,
    hP, ?_⟩
  rw [hP, harea]
  norm_num

/-- C8 (amended): for a round-tool `ConstantCurvature` simulation with
`kx = ky = 0`, positive force, positive stiffness, positive radius and
the `area = πr²` geometry invariant, the pressure solve takes the second
closed-form branch and the pressure equals the uniform `F/area` at every
cell whose shape-mask weight is exactly `1`; over the whole grid the
field is the mask-weighted `shape(x, y) · F/area`. -/
theorem C8_zero_curvature_uniform_pressure (s : RCCSim) (hkx : s.kx = 0)
    (hky : s.ky = 0) (hF : 0 < s.force) (hS : 0 < s.stiffness)
    (hr : 0 < s.geom.r) (harea : s.geom.area = Real.pi * s.geom.r ^ 2)
    (x y : ℝ) :
    ccRoundPressureField s = some (ccPressureAt s (ccD2 s))
  ∧ ccPressureAt s (ccD2 s) x y = s.shape x y * (s.force / s.geom.area) := by
  have hπ := Real.pi_pos
  have hS' := hS.ne'
  have hr' := hr.ne'
  have hπ' := Real.pi_ne_zero
  have hd2 : 0 < ccD2 s := by
    unfold ccD2
    rw [hkx, hky]
    have h1 : 0 < s.force / (s.stiffness * Real.pi * s.geom.r ^ 2) :=
      div_pos hF (by positivity)
    have h2 : s.geom.r ^ 2 * (0 + 0) / 8 = 0 := by ring
    rw [h2, add_zero]
    exact h1
  have he : s.stiffness * (ccD2 s - s.kx * x ^ 2 / 2 - s.ky * y ^ 2 / 2)
      = s.force / s.geom.area := by
    unfold ccD2
    rw [hkx, hky, harea]
    field_simp
    ring
  have hpos : 0 < s.force / s.geom.area := by
    rw [harea]
    exact div_pos hF (by positivity)
  refine ⟨ccRoundPressureField_zero_curv s hkx hky hd2, ?_⟩
  unfold ccPressureAt
  rw [he, if_pos hpos]
  ring

/-- C8 witness: the concrete simulation `rccDemo` satisfies all the
hypotheses, its pressure solve takes the closed-form branch, and at the
interior cell `(0, 0)` (mask weight `1`) the pressure is the uniform
`F/area`. -/
theorem C8_zero_curvature_uniform_pressure_witness :
    (ccRoundPressureField rccDemo = some (ccPressureAt rccDemo (ccD2 rccDemo))
      ∧ ccPressureAt rccDemo (ccD2 rccDemo) 0 0
          = rccDemo.shape 0 0 * (rccDemo.force / rccDemo.geom.area)) :=
  C8_zero_curvature_uniform_pressure rccDemo rfl rfl
    (show (0 : ℝ) < Real.pi from Real.pi_pos)
    (show (0 : ℝ) < 1 from one_pos)
    (show (0 : ℝ) < 2 from two_pos)
    rfl 0 0

end MrSim
